import Mathlib

/-!
Verification of the PTS plotting utilities.

A shallow embedding of the three source modules of this repository:

* `visual/plotdensitycuts.py`  — `plotMediaDensityCuts`
* `visual/plottemperaturecuts.py` — `plotTemperatureCuts`
* `utils/path.py` — `pts`

The plotting functions read probe output files from a SKIRT simulation,
render figures and (outside interactive mode) save them to disk.  The
external world (the FITS loader `sm.loadFits`, the save-path resolver
`pts.utils.savePath`, the resolved interactive flag `pts.utils.interactive`)
is modelled as an environment of functions; the observable behaviour of a
call is the trace of figure/file events it produces.  A second, error-aware
embedding models the same control flow over `Except`, where the underlying
I/O calls may fail, to reason about exception propagation.
-/

/-- File-system paths handed around by the plotting code (Python `pathlib.Path`
rendered as a plain string). -/
abbrev FilePath := String

/-- The data array of a loaded FITS frame, flattened; values are the physical
quantities (`astropy` quantity array), modelled as rationals. -/
abbrev Frame := List ℚ

/-- Python `max` over a nonempty sequence; on the empty sequence (which the
source never produces, `numpy` would raise) we return `0`. -/
def listMax : List ℚ → ℚ
  | [] => 0
  | x :: xs => xs.foldl max x

/-- In-place clipping `frame[frame < vmin] = vmin` from `plotdensitycuts.py`. -/
def clipBelow (vmin : ℚ) (f : Frame) : Frame :=
  f.map fun x => if x < vmin then vmin else x

/-- Whether `pat` occurs as a contiguous prefix of `s` (char-list level). -/
def startsWithChars : List Char → List Char → Bool
  | [], _ => true
  | _ :: _, [] => false
  | a :: as, b :: bs => a == b && startsWithChars as bs

/-- Whether `pat` occurs as a contiguous substring of `s` (char-list level);
embeds Python `pat in s`. -/
def charsContains (pat : List Char) : List Char → Bool
  | [] => pat.isEmpty
  | a :: rest => startsWithChars pat (a :: rest) || charsContains pat rest

/-- Python `pat in s` on strings. -/
def strContains (s pat : String) : Bool :=
  charsContains pat.data s.data

/-- Split a char list on a separator character; embeds Python `str.split(sep)`
for a one-character separator. -/
def splitOnChar (c : Char) : List Char → List (List Char)
  | [] => [[]]
  | a :: rest =>
    match splitOnChar c rest with
    | [] => [[a]]
    | g :: gs => if a == c then [] :: g :: gs else (a :: g) :: gs

/-- Join char-list groups with a separator character. -/
def joinWith (c : Char) : List (List Char) → List Char
  | [] => []
  | [g] => g
  | g :: gs => g ++ c :: joinWith c gs

/-- The final path component (`pathlib.Path.name`). -/
def pathNameOf (p : FilePath) : List Char :=
  (splitOnChar '/' p.data).getLastD []

/-- Embedding of `pathlib.Path.stem`: the final path component without its last suffix. -/
def pathStem (p : FilePath) : String :=
  let name := pathNameOf p
  let parts := splitOnChar '.' name
  if parts.length ≤ 1 then String.mk name
  else String.mk (joinWith '.' parts.dropLast)

/-- Embedding of `path.stem.split("_")[-1]` from `plottemperaturecuts.py`: the cut label
encoded at the end of a temperature-cut file name. -/
def cutLabelOf (p : FilePath) : String :=
  String.mk ((splitOnChar '_' (pathStem p).data).getLastD [])

/-- A SKIRT probe as seen by the plotting functions: its type name, its name,
and the resolution of output-file patterns to the matching output files
(`probe.outFilePaths(pattern)`). -/
structure Probe where
  type_ : String
  name : String
  outFilePaths : String → List FilePath

/-- A SKIRT simulation as seen by the plotting functions: its probe list and
the resolution of a file name to a path in the simulation output directory,
including the simulation prefix (`simulation.outFilePath(name)`). -/
structure Simulation where
  probes : List Probe
  outFilePath : String → FilePath

/-- The environment of external library calls used by the plotting functions:
`sm.loadFits` (total here; the error-aware model is below), the resolved
`ut.savePath` with the caller's out* overrides already fixed, and the value
of `ut.interactive(interactive)`. -/
structure Env where
  loadFits : FilePath → Frame
  savePath : FilePath → FilePath
  interactive : Bool

/-- The matplotlib color normalizer chosen by `plotMediaDensityCuts`. -/
inductive Normalizer
  | logNorm (vmin vmax : ℚ)
  | normalize (vmin vmax : ℚ)
deriving DecidableEq, Repr

/-- Observable effects of a plotting call: a figure is created, a file is
saved, a figure is closed.  A created figure with no matching close is left
open for inline display. -/
inductive Event
  | figureCreated
  | fileSaved (path : FilePath)
  | figureClosed
deriving DecidableEq, Repr

/-- Probe types matched by `plotMediaDensityCuts`. -/
def isMediaDensityCutsProbe (p : Probe) : Bool :=
  p.type_ == "DefaultMediaDensityCutsProbe" || p.type_ == "PlanarMediaDensityCutsProbe"

/-- The media iterated over by `plotMediaDensityCuts`. -/
def mediaList : List String := ["dust", "elec", "gas"]

/-- The planar cuts iterated over by `plotMediaDensityCuts`. -/
def cutList : List String := ["xy", "xz", "yz"]

/-- The values computed in one iteration of the inner loop of
`plotMediaDensityCuts`, together with the events it emits. -/
structure DensityCutResult where
  vmax : ℚ
  vmin : ℚ
  tFrame : Frame
  gFrame : Frame
  normalizer : Normalizer
  events : List Event
deriving DecidableEq, Repr

/-- One `(probe, medium, cut)` iteration of `plotMediaDensityCuts`
(`plotdensitycuts.py`, lines 48-97): resolve the theoretical and gridded
file patterns; when each matches exactly one file, load the frames, compute
the display range, clip, choose the normalizer, and either leave the figure
open (interactive) or save it under
`{probe.name()}_{medium}_{cut}.pdf` resolved through `simulation.outFilePath`
and `ut.savePath`.  Otherwise do nothing for this combination. -/
def densityCutStep (env : Env) (sim : Simulation) (decades : ℕ)
    (probe : Probe) (medium cut : String) : Option DensityCutResult :=
  let tPaths := probe.outFilePaths (medium ++ "_t_" ++ cut ++ ".fits")
  let gPaths := probe.outFilePaths (medium ++ "_g_" ++ cut ++ ".fits")
  match tPaths, gPaths with
  | [tPath], [gPath] =>
    let tFrame := env.loadFits tPath
    let gFrame := env.loadFits gPath
    let vmax := max (listMax tFrame) (listMax gFrame)
    let vmin := vmax / 10 ^ decades
    let tFrame := clipBelow vmin tFrame
    let gFrame := clipBelow vmin gFrame
    let normalizer :=
      if vmax > 0 then Normalizer.logNorm vmin vmax
      else Normalizer.normalize vmin vmax
    let events :=
      if env.interactive then [Event.figureCreated]
      else
        let defSavePath := sim.outFilePath (probe.name ++ "_" ++ medium ++ "_" ++ cut ++ ".pdf")
        let saveFilePath := env.savePath defSavePath
        [Event.figureCreated, Event.fileSaved saveFilePath, Event.figureClosed]
    some { vmax, vmin, tFrame, gFrame, normalizer, events }
  | _, _ => none

/-- The events emitted by one (possibly skipped) density-cut iteration. -/
def cutEvents (o : Option DensityCutResult) : List Event :=
  (o.map (·.events)).getD []

/-- Embedding of `plotMediaDensityCuts(simulation, decades, ...)`: filter the
probes, iterate over probe × medium × cut, and concatenate the events. -/
def plotMediaDensityCuts (env : Env) (sim : Simulation) (decades : ℕ) : List Event :=
  let probes := sim.probes.filter isMediaDensityCutsProbe
  probes.flatMap fun probe =>
    mediaList.flatMap fun medium =>
      cutList.flatMap fun cut =>
        cutEvents (densityCutStep env sim decades probe medium cut)

/-- The probe types matched by `plotTemperatureCuts`:
`style + medium + "TemperatureCutsProbe"` for the two styles and three media. -/
def temperatureProbeTypes : List String :=
  ["Default", "Planar"].flatMap fun style =>
    ["Dust", "Gas", "Electron"].map fun medium =>
      style ++ medium ++ "TemperatureCutsProbe"

/-- The probes `plotTemperatureCuts` iterates over. -/
def tempProbes (sim : Simulation) : List Probe :=
  sim.probes.filter fun p => temperatureProbeTypes.contains p.type_

/-- The medium indicator derived from a temperature probe's type
(`plottemperaturecuts.py`, lines 45-48). -/
def tempMedium (probe : Probe) : String :=
  let medium := "dust"
  let medium := if strContains probe.type_ "Gas" then "gas" else medium
  if strContains probe.type_ "Electron" then "elec" else medium

/-- The values computed in one probe iteration of `plotTemperatureCuts`,
together with the events it emits. -/
structure TempProbeResult where
  medium : String
  numcuts : ℕ
  cuts : List String
  Tmax : ℚ
  figSize : ℕ × ℕ
  events : List Event
deriving DecidableEq, Repr

/-- One probe iteration of `plotTemperatureCuts` (`plottemperaturecuts.py`,
lines 44-88): derive the medium, resolve `{medium}_T_*.fits`; when the number
of matches is 1, 2 or 3, load the cuts, compute `Tmax`, default the figure
size to `(8*numcuts, 6)` when none is given, and either leave the figure open
(interactive) or save it under `{probe.name()}_{medium}_T.pdf` resolved
through `simulation.outFilePath` and `ut.savePath`.  A `none` result embeds
the `return` statement that aborts the whole function. -/
def tempProbeStep (env : Env) (sim : Simulation) (figSize : Option (ℕ × ℕ))
    (probe : Probe) : Option TempProbeResult :=
  let medium := tempMedium probe
  let paths := probe.outFilePaths (medium ++ "_T_*.fits")
  let numcuts := paths.length
  if numcuts = 1 ∨ numcuts = 2 ∨ numcuts = 3 then
    let cuts := paths.map cutLabelOf
    let frames := paths.map env.loadFits
    let Tmax := listMax (frames.map listMax)
    let figSize := figSize.getD (8 * numcuts, 6)
    let events :=
      if env.interactive then [Event.figureCreated]
      else
        let saveFilePath :=
          env.savePath (sim.outFilePath (probe.name ++ "_" ++ medium ++ "_T.pdf"))
        [Event.figureCreated, Event.fileSaved saveFilePath, Event.figureClosed]
    some { medium, numcuts, cuts, Tmax, figSize, events }
  else none

/-- The probe loop of `plotTemperatureCuts`.  The local `figSize` is threaded
through: once assigned from the first probe's cut count it is no longer
`none`.  A `none` step result models the early `return`: the remaining probes
are not processed. -/
def plotTemperatureCutsLoop (env : Env) (sim : Simulation) :
    List Probe → Option (ℕ × ℕ) → List Event
  | [], _ => []
  | probe :: rest, figSize =>
    match tempProbeStep env sim figSize probe with
    | none => []
    | some r => r.events ++ plotTemperatureCutsLoop env sim rest (some r.figSize)

/-- Embedding of `plotTemperatureCuts(simulation, ..., figSize, interactive)`. -/
def plotTemperatureCuts (env : Env) (sim : Simulation)
    (figSize : Option (ℕ × ℕ)) : List Event :=
  plotTemperatureCutsLoop env sim (tempProbes sim) figSize

/-- Embedding of `pathlib.Path.parent` on a path represented as its component list. -/
def parentDir (p : List String) : List String := p.dropLast

/-- Embedding of `pts.utils.path.pts` (`utils/path.py`, lines 23-24):
`pathlib.Path(inspect.getfile(inspect.currentframe())).parent.parent`, where
the argument is the (absolute) component path of the module file `path.py`
that defines the function. -/
def pts (moduleFile : List String) : List String :=
  parentDir (parentDir moduleFile)

/-- Spec-side naming convention, following the spec's words: the default
output filename is `{probeName}_{medium}_{cut}.{ext}` where `cut` identifies
one of the planar cuts shown in the figure (so the name up to the extension
dot is determined by probe name, medium, and one of the figure's cuts). -/
def specNamingConvention (probeName medium : String) (cuts : List String)
    (fname : String) : Bool :=
  cuts.any fun cut =>
    startsWithChars (probeName ++ "_" ++ medium ++ "_" ++ cut ++ ".").data fname.data

/-! Error-aware model.

The same control flow, with the underlying I/O calls (`sm.loadFits`,
`plt.savefig`) allowed to fail.  Neither source function contains a
`try`/`except`, so every call is sequenced directly: in the embedding each
call's `Except` result is threaded with `Except.bind` and never pattern
matched against `error`. -/

/-- The environment of external calls, each I/O call fallible. -/
structure EnvE where
  loadFits : FilePath → Except String Frame
  savefig : FilePath → Except String Unit
  savePath : FilePath → FilePath
  interactive : Bool

/-- One `(probe, medium, cut)` iteration of `plotMediaDensityCuts` in the
error-aware model: the two loads and the save are sequenced with `bind`. -/
def densityCutStepE (env : EnvE) (sim : Simulation) (decades : ℕ)
    (probe : Probe) (medium cut : String) : Except String (List Event) :=
  let tPaths := probe.outFilePaths (medium ++ "_t_" ++ cut ++ ".fits")
  let gPaths := probe.outFilePaths (medium ++ "_g_" ++ cut ++ ".fits")
  match tPaths, gPaths with
  | [tPath], [gPath] =>
    (env.loadFits tPath).bind fun tFrame =>
    (env.loadFits gPath).bind fun gFrame =>
    let vmax := max (listMax tFrame) (listMax gFrame)
    let vmin := vmax / 10 ^ decades
    let _tFrame := clipBelow vmin tFrame
    let _gFrame := clipBelow vmin gFrame
    if env.interactive then Except.ok [Event.figureCreated]
    else
      let saveFilePath :=
        env.savePath (sim.outFilePath (probe.name ++ "_" ++ medium ++ "_" ++ cut ++ ".pdf"))
      (env.savefig saveFilePath).bind fun _ =>
        Except.ok [Event.figureCreated, Event.fileSaved saveFilePath, Event.figureClosed]
  | _, _ => Except.ok []

/-- Sequence a fallible event-producing step over a list, concatenating the
events; an error from any step is the result of the whole loop. -/
def concatMapE (f : α → Except String (List Event)) : List α → Except String (List Event)
  | [] => Except.ok []
  | x :: xs =>
    (f x).bind fun e1 => (concatMapE f xs).bind fun e2 => Except.ok (e1 ++ e2)

/-- Embedding of `plotMediaDensityCuts` in the error-aware model. -/
def plotMediaDensityCutsE (env : EnvE) (sim : Simulation) (decades : ℕ) :
    Except String (List Event) :=
  concatMapE (fun probe =>
      concatMapE (fun medium =>
          concatMapE (fun cut => densityCutStepE env sim decades probe medium cut)
            cutList)
        mediaList)
    (sim.probes.filter isMediaDensityCutsProbe)

/-- Embedding of the list of `sm.loadFits(path)` calls in the error-aware model. -/
def mapLoadE (env : EnvE) : List FilePath → Except String (List Frame)
  | [] => Except.ok []
  | p :: ps =>
    (env.loadFits p).bind fun f => (mapLoadE env ps).bind fun fs => Except.ok (f :: fs)

/-- One probe iteration of `plotTemperatureCuts` in the error-aware model;
`ok none` embeds the early `return`. -/
def tempProbeStepE (env : EnvE) (sim : Simulation) (figSize : Option (ℕ × ℕ))
    (probe : Probe) : Except String (Option TempProbeResult) :=
  let medium := tempMedium probe
  let paths := probe.outFilePaths (medium ++ "_T_*.fits")
  let numcuts := paths.length
  if numcuts = 1 ∨ numcuts = 2 ∨ numcuts = 3 then
    (mapLoadE env paths).bind fun frames =>
    let cuts := paths.map cutLabelOf
    let Tmax := listMax (frames.map listMax)
    let figSize := figSize.getD (8 * numcuts, 6)
    if env.interactive then
      Except.ok (some { medium, numcuts, cuts, Tmax, figSize,
                        events := [Event.figureCreated] })
    else
      let saveFilePath :=
        env.savePath (sim.outFilePath (probe.name ++ "_" ++ medium ++ "_T.pdf"))
      (env.savefig saveFilePath).bind fun _ =>
        Except.ok (some { medium, numcuts, cuts, Tmax, figSize,
                          events := [Event.figureCreated, Event.fileSaved saveFilePath,
                                     Event.figureClosed] })
  else Except.ok none

/-- The probe loop of `plotTemperatureCuts` in the error-aware model. -/
def plotTemperatureCutsLoopE (env : EnvE) (sim : Simulation) :
    List Probe → Option (ℕ × ℕ) → Except String (List Event)
  | [], _ => Except.ok []
  | probe :: rest, figSize =>
    (tempProbeStepE env sim figSize probe).bind fun res =>
      match res with
      | none => Except.ok []
      | some r =>
        (plotTemperatureCutsLoopE env sim rest (some r.figSize)).bind fun es =>
          Except.ok (r.events ++ es)

/-- Embedding of `plotTemperatureCuts` in the error-aware model. -/
def plotTemperatureCutsE (env : EnvE) (sim : Simulation)
    (figSize : Option (ℕ × ℕ)) : Except String (List Event) :=
  plotTemperatureCutsLoopE env sim (tempProbes sim) figSize

/-! Concrete instances used in witnesses and counterexamples. -/

/-- A density-cut probe whose `dust`/`xy` files exist (one theoretical, one
gridded) and whose other patterns match no files. -/
def wProbeD : Probe :=
  { type_ := "DefaultMediaDensityCutsProbe", name := "pr",
    outFilePaths := fun pat =>
      if pat == "dust_t_xy.fits" || pat == "dust_g_xy.fits" then [pat] else [] }

/-- A dust-temperature probe with a single `xy` cut file. -/
def wProbeT1 : Probe :=
  { type_ := "DefaultDustTemperatureCutsProbe", name := "tp",
    outFilePaths := fun pat =>
      if pat == "dust_T_*.fits" then ["dust_T_xy.fits"] else [] }

/-- A dust-temperature probe with two cut files (`xy` and `xz`). -/
def wProbeT2 : Probe :=
  { type_ := "PlanarDustTemperatureCutsProbe", name := "tq",
    outFilePaths := fun pat =>
      if pat == "dust_T_*.fits" then ["dust_T_xy.fits", "dust_T_xz.fits"] else [] }

/-- A temperature probe whose pattern matches no file at all (count 0). -/
def wProbeT0 : Probe :=
  { type_ := "DefaultGasTemperatureCutsProbe", name := "t0",
    outFilePaths := fun _ => [] }

/-- A probe of a type neither function matches. -/
def wProbeX : Probe :=
  { type_ := "FrameProbe", name := "fx", outFilePaths := fun _ => [] }

/-- Non-interactive environment: every load yields the frame `[2]`,
`ut.savePath` and `simulation.outFilePath` are taken as identities.  The
empty frame keeps every numeric branch condition kernel-reducible. -/
def wEnv : Env := { loadFits := fun _ => [], savePath := id, interactive := false }

/-- Interactive environment. -/
def wEnvI : Env := { loadFits := fun _ => [], savePath := id, interactive := true }

/-- Error-aware environment in which every `loadFits` fails with `"io"`. -/
def wEnvE : EnvE :=
  { loadFits := fun _ => Except.error "io", savefig := fun _ => Except.ok (),
    savePath := id, interactive := false }

/-- Simulation holding the single density probe `wProbeD`. -/
def wSimD : Simulation := { probes := [wProbeD], outFilePath := id }

/-- Simulation holding the single temperature probe `wProbeT1`. -/
def wSimT1 : Simulation := { probes := [wProbeT1], outFilePath := id }

/-- Simulation holding the two-cut probe `wProbeT2` before the one-cut probe
`wProbeT1`. -/
def wSimT21 : Simulation := { probes := [wProbeT2, wProbeT1], outFilePath := id }

/-- Simulation holding a density probe and a temperature probe. -/
def wSimBoth : Simulation := { probes := [wProbeD, wProbeT1], outFilePath := id }

/-- Simulation holding only the unmatched probe `wProbeX`. -/
def wSimX : Simulation := { probes := [wProbeX], outFilePath := id }

/-- Simulation holding the zero-file probe `wProbeT0` before the valid
one-cut probe `wProbeT1`. -/
def wSimT01 : Simulation := { probes := [wProbeT0, wProbeT1], outFilePath := id }

/-- The step result of the two-cut probe `wProbeT2` under `wEnv` (its events,
cut labels and defaulted figure size). -/
def wR2 : TempProbeResult :=
  { medium := "dust", numcuts := 2, cuts := ["xy", "xz"], Tmax := 0, figSize := (16, 6),
    events := [Event.figureCreated, Event.fileSaved "tq_dust_T.pdf", Event.figureClosed] }

/-! Theorems. -/

/-- C7. `pts()` returns the toolkit's top-level repository directory: the
parent of the parent of the defining module file `<root>/utils/path.py`. -/
theorem pts_returns_repo_root (root : List String) :
    pts (root ++ ["utils", "path.py"]) = root := by
  unfold pts parentDir
  have h : root ++ ["utils", "path.py"] = (root ++ ["utils"]) ++ ["path.py"] := by
    rw [List.append_assoc]; rfl
  rw [h, List.dropLast_concat, List.dropLast_concat]

/-- C3. When `plotMediaDensityCuts` processes a medium/cut combination,
the display floor `vmin` equals `vmax / 10^decades`, where `vmax` is the
maximum over both the theoretical and the gridded frame. -/
theorem density_vmin_floor (env : Env) (sim : Simulation) (decades : ℕ)
    (probe : Probe) (medium cut : String) (r : DensityCutResult)
    (h : densityCutStep env sim decades probe medium cut = some r) :
    ∃ tPath gPath,
      probe.outFilePaths (medium ++ "_t_" ++ cut ++ ".fits") = [tPath] ∧
      probe.outFilePaths (medium ++ "_g_" ++ cut ++ ".fits") = [gPath] ∧
      r.vmax = max (listMax (env.loadFits tPath)) (listMax (env.loadFits gPath)) ∧
      r.vmin = r.vmax / 10 ^ decades := by
  simp only [densityCutStep] at h
  split at h
  next tPath gPath heqT heqG =>
    injection h with h
    subst h
    exact ⟨tPath, gPath, heqT, heqG, rfl, rfl⟩
  next => exact Option.noConfusion h

/-- Witness for `density_vmin_floor` at a concrete simulation. -/
theorem density_vmin_floor_witness :
    ∃ tPath gPath,
      wProbeD.outFilePaths ("dust" ++ "_t_" ++ "xy" ++ ".fits") = [tPath] ∧
      wProbeD.outFilePaths ("dust" ++ "_g_" ++ "xy" ++ ".fits") = [gPath] ∧
      (0 : ℚ) = max (listMax (wEnv.loadFits tPath)) (listMax (wEnv.loadFits gPath)) ∧
      (0 : ℚ) / 10 ^ 5 = (0 : ℚ) / 10 ^ 5 :=
  density_vmin_floor wEnv wSimD 5 wProbeD "dust" "xy"
    { vmax := 0, vmin := 0 / 10 ^ 5, tFrame := [], gFrame := [],
      normalizer := Normalizer.normalize (0 / 10 ^ 5) 0,
      events := [Event.figureCreated, Event.fileSaved "pr_dust_xy.pdf", Event.figureClosed] }
    rfl

/-- C4. When `plotMediaDensityCuts` processes a medium/cut combination,
the logarithmic normalizer is selected exactly when `vmax` is strictly
positive, and the linear one exactly when `vmax` is non-positive. -/
theorem density_normalizer_choice (env : Env) (sim : Simulation) (decades : ℕ)
    (probe : Probe) (medium cut : String) (r : DensityCutResult)
    (h : densityCutStep env sim decades probe medium cut = some r) :
    (r.vmax ≤ 0 → r.normalizer = Normalizer.normalize r.vmin r.vmax) ∧
    (0 < r.vmax → r.normalizer = Normalizer.logNorm r.vmin r.vmax) := by
  simp only [densityCutStep] at h
  split at h
  next tPath gPath heqT heqG =>
    injection h with h
    subst h
    constructor
    · intro hle
      simp only [if_neg (not_lt.mpr hle)]
    · intro hlt
      simp only [if_pos hlt]
  next => exact Option.noConfusion h

/-- Witness for `density_normalizer_choice` at a concrete simulation. -/
theorem density_normalizer_choice_witness :
    Normalizer.normalize (0 / 10 ^ 5) 0 = Normalizer.normalize (0 / 10 ^ 5) (0 : ℚ) :=
  (density_normalizer_choice wEnv wSimD 5 wProbeD "dust" "xy"
    { vmax := 0, vmin := 0 / 10 ^ 5, tFrame := [], gFrame := [],
      normalizer := Normalizer.normalize (0 / 10 ^ 5) 0,
      events := [Event.figureCreated, Event.fileSaved "pr_dust_xy.pdf", Event.figureClosed] }
    rfl).1 le_rfl

/-- C5. When the simulation's probe list contains no probe of the types a
function matches, that function produces no events at all (in particular it
writes no file). -/
theorem no_matching_probes_no_output (env : Env) (sim : Simulation) (decades : ℕ)
    (figSize : Option (ℕ × ℕ))
    (h1 : ∀ p ∈ sim.probes, isMediaDensityCutsProbe p = false)
    (h2 : ∀ p ∈ sim.probes, temperatureProbeTypes.contains p.type_ = false) :
    plotMediaDensityCuts env sim decades = [] ∧
    plotTemperatureCuts env sim figSize = [] := by
  have hf1 : sim.probes.filter isMediaDensityCutsProbe = [] := by
    rw [List.filter_eq_nil_iff]
    intro p hp
    simp [h1 p hp]
  have hf2 : tempProbes sim = [] := by
    rw [tempProbes, List.filter_eq_nil_iff]
    intro p hp
    simpa using h2 p hp
  constructor
  · rw [plotMediaDensityCuts, hf1]
    rfl
  · rw [plotTemperatureCuts, hf2]
    rfl

/-- Witness for `no_matching_probes_no_output`: a simulation holding only a
`FrameProbe`. -/
theorem no_matching_probes_no_output_witness :
    plotMediaDensityCuts wEnv wSimX 5 = [] ∧ plotTemperatureCuts wEnv wSimX none = [] :=
  no_matching_probes_no_output wEnv wSimX 5 none (by decide) (by decide)

/-- Helper: a probe step that was given an explicit figure size keeps it. -/
theorem tempProbeStep_figSize_some (env : Env) (sim : Simulation) (fs : ℕ × ℕ)
    (probe : Probe) (r : TempProbeResult)
    (h : tempProbeStep env sim (some fs) probe = some r) : r.figSize = fs := by
  simp only [tempProbeStep] at h
  split at h
  · injection h with h
    subst h
    rfl
  · exact Option.noConfusion h

/-- Helper: a temperature probe whose file count is not 1, 2 or 3 makes the
probe step return `none` (the function-level `return`). -/
theorem tempProbeStep_none_of_bad_count (env : Env) (sim : Simulation)
    (figSize : Option (ℕ × ℕ)) (probe : Probe)
    (hbad : ¬((probe.outFilePaths (tempMedium probe ++ "_T_*.fits")).length = 1 ∨
              (probe.outFilePaths (tempMedium probe ++ "_T_*.fits")).length = 2 ∨
              (probe.outFilePaths (tempMedium probe ++ "_T_*.fits")).length = 3)) :
    tempProbeStep env sim figSize probe = none := by
  simp only [tempProbeStep]
  rw [if_neg hbad]

/-- Helper: once a probe step returns `none`, the loop yields nothing,
whatever probes remain. -/
theorem loop_cons_none (env : Env) (sim : Simulation) (figSize : Option (ℕ × ℕ))
    (probe : Probe) (rest : List Probe)
    (h : tempProbeStep env sim figSize probe = none) :
    plotTemperatureCutsLoop env sim (probe :: rest) figSize = [] := by
  simp only [plotTemperatureCutsLoop, h]

/-- C9. In `plotTemperatureCuts`, a probe whose temperature-cut file count
is not 1, 2 or 3 makes the whole function return immediately: nothing is
produced for it or for any probe after it, whatever those probes hold. -/
theorem tempCuts_bad_count_aborts (env : Env) (sim : Simulation)
    (figSize : Option (ℕ × ℕ)) (probe : Probe) (rest : List Probe)
    (hbad : ¬((probe.outFilePaths (tempMedium probe ++ "_T_*.fits")).length = 1 ∨
              (probe.outFilePaths (tempMedium probe ++ "_T_*.fits")).length = 2 ∨
              (probe.outFilePaths (tempMedium probe ++ "_T_*.fits")).length = 3)) :
    plotTemperatureCutsLoop env sim (probe :: rest) figSize = [] ∧
    (tempProbes sim = probe :: rest → plotTemperatureCuts env sim figSize = []) := by
  have hstep := tempProbeStep_none_of_bad_count env sim figSize probe hbad
  refine ⟨loop_cons_none env sim figSize probe rest hstep, fun hts => ?_⟩
  rw [plotTemperatureCuts, hts]
  exact loop_cons_none env sim figSize probe rest hstep

/-- Witness for `tempCuts_bad_count_aborts`: with a zero-file probe first,
the whole invocation produces nothing although the second probe is valid. -/
theorem tempCuts_bad_count_aborts_witness :
    plotTemperatureCuts wEnv wSimT01 none = [] :=
  (tempCuts_bad_count_aborts wEnv wSimT01 none wProbeT0 [wProbeT1] (by decide)).2 rfl

/-- C1 fails as stated: in `plotMediaDensityCuts` a mismatched file count
for one cut does not make the function return without writing; here the
`dust`/`xz` pattern matches no file, yet the invocation still saves the
`dust`/`xy` figure. -/
theorem mismatch_count_still_writes_counterexample :
    (wProbeD.outFilePaths ("dust" ++ "_t_" ++ "xz" ++ ".fits")).length ≠ 1 ∧
    Event.fileSaved "pr_dust_xy.pdf" ∈ plotMediaDensityCuts wEnv wSimD 5 := by
  decide

/-- C1 (amended). A medium/cut combination of `plotMediaDensityCuts`
whose files are not found as exactly one theoretical and one gridded file is
silently skipped (that combination produces nothing, while the rest of the
invocation proceeds); in `plotTemperatureCuts` a probe whose file count is
not 1-3 aborts the whole remaining invocation. -/
theorem mismatch_skips_cut_or_aborts :
    (∀ env sim decades probe medium cut,
        ¬((probe.outFilePaths (medium ++ "_t_" ++ cut ++ ".fits")).length = 1 ∧
          (probe.outFilePaths (medium ++ "_g_" ++ cut ++ ".fits")).length = 1) →
        densityCutStep env sim decades probe medium cut = none) ∧
    (∀ env sim figSize probe rest,
        tempProbeStep env sim figSize probe = none →
        plotTemperatureCutsLoop env sim (probe :: rest) figSize = []) := by
  constructor
  · intro env sim decades probe medium cut h
    simp only [densityCutStep]
    split
    next tPath gPath heqT heqG =>
      exact absurd ⟨by rw [heqT]; rfl, by rw [heqG]; rfl⟩ h
    next => rfl
  · intro env sim figSize probe rest h
    exact loop_cons_none env sim figSize probe rest h

/-- Witness for `mismatch_skips_cut_or_aborts` at concrete inputs. -/
theorem mismatch_skips_cut_or_aborts_witness :
    densityCutStep wEnv wSimD 5 wProbeD "dust" "xz" = none ∧
    plotTemperatureCutsLoop wEnv wSimT01 (wProbeT0 :: [wProbeT1]) none = [] :=
  ⟨mismatch_skips_cut_or_aborts.1 wEnv wSimD 5 wProbeD "dust" "xz" (by decide),
   mismatch_skips_cut_or_aborts.2 wEnv wSimT01 none wProbeT0 [wProbeT1] rfl⟩

/-- C10. With `figSize=None`, the figure size is computed from the first
processed probe's cut count as `(8*numcuts, 6)` and that same size is reused
for every subsequent probe of the invocation, whatever its own cut count. -/
theorem tempCuts_figSize_fixed_by_first_probe (env : Env) (sim : Simulation)
    (p1 p2 : Probe) (rest : List Probe) (r1 : TempProbeResult)
    (h1 : tempProbeStep env sim none p1 = some r1) :
    r1.figSize = (8 * r1.numcuts, 6) ∧
    plotTemperatureCutsLoop env sim (p1 :: p2 :: rest) none =
      r1.events ++ plotTemperatureCutsLoop env sim (p2 :: rest) (some r1.figSize) ∧
    ∀ r2, tempProbeStep env sim (some r1.figSize) p2 = some r2 →
      r2.figSize = r1.figSize := by
  refine ⟨?_, ?_, ?_⟩
  · simp only [tempProbeStep] at h1
    split at h1
    · injection h1 with h1
      subst h1
      rfl
    · exact Option.noConfusion h1
  · simp only [plotTemperatureCutsLoop, h1]
  · intro r2 h2
    exact tempProbeStep_figSize_some env sim r1.figSize p2 r2 h2

/-- Witness for `tempCuts_figSize_fixed_by_first_probe`: the two-cut probe
comes first, so the one-cut probe is rendered at the `(16, 6)` figure size. -/
theorem tempCuts_figSize_fixed_by_first_probe_witness :
    plotTemperatureCutsLoop wEnv wSimT21 (wProbeT2 :: wProbeT1 :: []) none =
      wR2.events ++ plotTemperatureCutsLoop wEnv wSimT21 (wProbeT1 :: []) (some (16, 6)) :=
  (tempCuts_figSize_fixed_by_first_probe wEnv wSimT21 wProbeT2 wProbeT1 [] wR2 rfl).2.1

/-- Helper: the events of a processed density cut, by interactive mode. -/
theorem densityCutStep_events (env : Env) (sim : Simulation) (decades : ℕ)
    (probe : Probe) (medium cut : String) (r : DensityCutResult)
    (h : densityCutStep env sim decades probe medium cut = some r) :
    r.events = if env.interactive then [Event.figureCreated]
      else [Event.figureCreated,
            Event.fileSaved (env.savePath (sim.outFilePath
              (probe.name ++ "_" ++ medium ++ "_" ++ cut ++ ".pdf"))),
            Event.figureClosed] := by
  simp only [densityCutStep] at h
  split at h
  next =>
    injection h with h
    subst h
    rfl
  next => exact Option.noConfusion h

/-- Helper: the events of a processed temperature probe, by interactive mode. -/
theorem tempProbeStep_events (env : Env) (sim : Simulation)
    (figSize : Option (ℕ × ℕ)) (probe : Probe) (r : TempProbeResult)
    (h : tempProbeStep env sim figSize probe = some r) :
    r.events = if env.interactive then [Event.figureCreated]
      else [Event.figureCreated,
            Event.fileSaved (env.savePath (sim.outFilePath
              (probe.name ++ "_" ++ tempMedium probe ++ "_T.pdf"))),
            Event.figureClosed] := by
  simp only [tempProbeStep] at h
  split at h
  · injection h with h
    subst h
    rfl
  · exact Option.noConfusion h

/-- Helper: in non-interactive mode, every file saved by the temperature loop
is named after one of the looped-over probes. -/
theorem loop_saved_name (env : Env) (sim : Simulation)
    (hni : env.interactive = false) (p : FilePath) (probes : List Probe) :
    ∀ figSize : Option (ℕ × ℕ),
      Event.fileSaved p ∈ plotTemperatureCutsLoop env sim probes figSize →
      ∃ probe, probe ∈ probes ∧
        p = env.savePath (sim.outFilePath (probe.name ++ "_" ++ tempMedium probe ++ "_T.pdf")) := by
  induction probes with
  | nil =>
    intro figSize h
    exact absurd h (by simp [plotTemperatureCutsLoop])
  | cons probe rest ih =>
    intro figSize h
    simp only [plotTemperatureCutsLoop] at h
    rcases hstep : tempProbeStep env sim figSize probe with _ | r
    · rw [hstep] at h
      exact absurd h (by simp)
    · rw [hstep] at h
      simp only [List.mem_append] at h
      rcases h with h | h
      · have hev := tempProbeStep_events env sim figSize probe r hstep
        rw [hni] at hev
        simp only [Bool.false_eq_true, if_false] at hev
        rw [hev] at h
        simp only [List.mem_cons, List.not_mem_nil, or_false] at h
        rcases h with h | h | h
        · exact absurd h (by simp)
        · exact ⟨probe, List.mem_cons_self probe rest, by injection h⟩
        · exact absurd h (by simp)
      · obtain ⟨probe2, hmem, hp⟩ := ih (some r.figSize) h
        exact ⟨probe2, List.mem_cons_of_mem probe hmem, hp⟩

/-- C2 fails as stated for `plotTemperatureCuts`: the probe's only planar
cut is `xy`, yet the saved file is `tp_dust_T.pdf` — its third name component
is the literal `T`, which does not identify the planar cut. -/
theorem temp_name_not_cut_counterexample :
    plotTemperatureCuts wEnv wSimT1 none =
      [Event.figureCreated, Event.fileSaved "tp_dust_T.pdf", Event.figureClosed] ∧
    (tempProbeStep wEnv wSimT1 none wProbeT1).map (·.cuts) = some ["xy"] ∧
    specNamingConvention "tp" "dust" ["xy"] "tp_dust_T.pdf" = false := by
  decide

/-- C2 (amended). In non-interactive mode, every file saved by
`plotMediaDensityCuts` is named `{probeName}_{medium}_{cut}.pdf` (resolved
through `simulation.outFilePath` and `ut.savePath`) for one of the
simulation's probes, one of the three media and one of the three cuts; every
file saved by `plotTemperatureCuts` is named `{probeName}_{medium}_T.pdf`,
with the literal `T` rather than a cut identifier. -/
theorem default_names_follow_convention (env : Env) (sim : Simulation)
    (decades : ℕ) (figSize : Option (ℕ × ℕ)) (p : FilePath)
    (hni : env.interactive = false) :
    (Event.fileSaved p ∈ plotMediaDensityCuts env sim decades →
      ∃ probe, probe ∈ sim.probes ∧ ∃ medium ∈ mediaList, ∃ cut ∈ cutList,
        p = env.savePath (sim.outFilePath
              (probe.name ++ "_" ++ medium ++ "_" ++ cut ++ ".pdf"))) ∧
    (Event.fileSaved p ∈ plotTemperatureCuts env sim figSize →
      ∃ probe, probe ∈ sim.probes ∧
        p = env.savePath (sim.outFilePath
              (probe.name ++ "_" ++ tempMedium probe ++ "_T.pdf"))) := by
  constructor
  · intro hp
    simp only [plotMediaDensityCuts, List.mem_flatMap] at hp
    obtain ⟨probe, hprobe, medium, hmed, cut, hcut, hp⟩ := hp
    rcases hstep : densityCutStep env sim decades probe medium cut with _ | r
    · rw [hstep] at hp
      exact absurd hp (by simp [cutEvents])
    · rw [hstep] at hp
      have hev := densityCutStep_events env sim decades probe medium cut r hstep
      rw [hni] at hev
      simp only [Bool.false_eq_true, if_false] at hev
      have hce : cutEvents (some r) = r.events := rfl
      rw [hce, hev] at hp
      simp only [List.mem_cons, List.not_mem_nil, or_false] at hp
      rcases hp with hp | hp | hp
      · exact absurd hp (by simp)
      · exact ⟨probe, (List.mem_filter.mp hprobe).1, medium, hmed, cut, hcut, by injection hp⟩
      · exact absurd hp (by simp)
  · intro hp
    obtain ⟨probe, hmem, hname⟩ :=
      loop_saved_name env sim hni p (tempProbes sim) figSize hp
    exact ⟨probe, (List.mem_filter.mp hmem).1, hname⟩

/-- Witness for `default_names_follow_convention` at a concrete simulation. -/
theorem default_names_follow_convention_witness :
    ∃ probe, probe ∈ wSimD.probes ∧ ∃ medium ∈ mediaList, ∃ cut ∈ cutList,
      "pr_dust_xy.pdf" = wEnv.savePath (wSimD.outFilePath
        (probe.name ++ "_" ++ medium ++ "_" ++ cut ++ ".pdf")) :=
  (default_names_follow_convention wEnv wSimD 5 none "pr_dust_xy.pdf" rfl).1 (by decide)

/-- Helper: in interactive mode every event of the temperature loop is a
figure creation. -/
theorem loop_interactive_all_created (env : Env) (sim : Simulation)
    (hint : env.interactive = true) (probes : List Probe) :
    ∀ (figSize : Option (ℕ × ℕ)) (e : Event),
      e ∈ plotTemperatureCutsLoop env sim probes figSize → e = Event.figureCreated := by
  induction probes with
  | nil =>
    intro figSize e h
    exact absurd h (by simp [plotTemperatureCutsLoop])
  | cons probe rest ih =>
    intro figSize e h
    simp only [plotTemperatureCutsLoop] at h
    rcases hstep : tempProbeStep env sim figSize probe with _ | r
    · rw [hstep] at h
      exact absurd h (by simp)
    · rw [hstep] at h
      simp only [List.mem_append] at h
      rcases h with h | h
      · have hev := tempProbeStep_events env sim figSize probe r hstep
        rw [hint, if_pos rfl] at hev
        rw [hev] at h
        simpa using h
      · exact ih (some r.figSize) e h

/-- C6. When the resolved interactive flag is set, neither function saves
a file, and no figure is closed (each created figure is left open); file
saving only happens with the flag unset. -/
theorem interactive_mode_no_save (env : Env) (sim : Simulation) (decades : ℕ)
    (figSize : Option (ℕ × ℕ)) (hint : env.interactive = true) :
    (∀ p, Event.fileSaved p ∉ plotMediaDensityCuts env sim decades) ∧
    Event.figureClosed ∉ plotMediaDensityCuts env sim decades ∧
    (∀ p, Event.fileSaved p ∉ plotTemperatureCuts env sim figSize) ∧
    Event.figureClosed ∉ plotTemperatureCuts env sim figSize := by
  have hd : ∀ e ∈ plotMediaDensityCuts env sim decades, e = Event.figureCreated := by
    intro e he
    simp only [plotMediaDensityCuts, List.mem_flatMap] at he
    obtain ⟨probe, _, medium, _, cut, _, he⟩ := he
    rcases hstep : densityCutStep env sim decades probe medium cut with _ | r
    · rw [hstep] at he
      exact absurd he (by simp [cutEvents])
    · rw [hstep] at he
      have hev := densityCutStep_events env sim decades probe medium cut r hstep
      rw [hint, if_pos rfl] at hev
      have hce : cutEvents (some r) = r.events := rfl
      rw [hce, hev] at he
      simpa using he
  have ht : ∀ e ∈ plotTemperatureCuts env sim figSize, e = Event.figureCreated :=
    fun e he => loop_interactive_all_created env sim hint (tempProbes sim) figSize e he
  refine ⟨fun p hp => ?_, fun hp => ?_, fun p hp => ?_, fun hp => ?_⟩
  · exact Event.noConfusion (hd _ hp)
  · exact Event.noConfusion (hd _ hp)
  · exact Event.noConfusion (ht _ hp)
  · exact Event.noConfusion (ht _ hp)

/-- Witness for `interactive_mode_no_save` at a concrete simulation in
interactive mode. -/
theorem interactive_mode_no_save_witness :
    Event.fileSaved "pr_dust_xy.pdf" ∉ plotMediaDensityCuts wEnvI wSimD 5 ∧
    Event.figureClosed ∉ plotTemperatureCuts wEnvI wSimT1 none :=
  ⟨(interactive_mode_no_save wEnvI wSimD 5 none rfl).1 "pr_dust_xy.pdf",
   (interactive_mode_no_save wEnvI wSimT1 5 none rfl).2.2.2⟩

/-- Helper: an `Except.bind` that errors either errors in its first action or
in its continuation, with the same error value. -/
theorem except_bind_error {α β : Type} {a : Except String α}
    {k : α → Except String β} {e : String} (h : a.bind k = Except.error e) :
    a = Except.error e ∨ ∃ v, a = Except.ok v ∧ k v = Except.error e := by
  cases a with
  | error e2 =>
    left
    have h3 : (Except.error e2 : Except String β) = Except.error e := by
      simpa only [Except.bind] using h
    have h4 : e2 = e := by injection h3
    rw [h4]
  | ok v => exact Or.inr ⟨v, rfl, by simpa only [Except.bind] using h⟩

/-- Helper: an error of a density-cut step originates in an underlying
`loadFits` or `savefig` call, unchanged. -/
theorem densityCutStepE_error (env : EnvE) (sim : Simulation) (decades : ℕ)
    (probe : Probe) (medium cut : String) (e : String)
    (h : densityCutStepE env sim decades probe medium cut = Except.error e) :
    (∃ p, env.loadFits p = Except.error e) ∨
    (∃ p, env.savefig p = Except.error e) := by
  simp only [densityCutStepE] at h
  split at h
  next tPath gPath heqT heqG =>
    rcases except_bind_error h with h1 | ⟨tf, h1, h2⟩
    · exact Or.inl ⟨tPath, h1⟩
    · rcases except_bind_error h2 with h3 | ⟨gf, h3, h4⟩
      · exact Or.inl ⟨gPath, h3⟩
      · split at h4
        · exact Except.noConfusion h4
        · rcases except_bind_error h4 with h5 | ⟨u, h5, h6⟩
          · exact Or.inr ⟨_, h5⟩
          · exact Except.noConfusion h6
  next => exact Except.noConfusion h

/-- Helper: an error of `concatMapE` originates in one of the steps. -/
theorem concatMapE_error {α : Type} (f : α → Except String (List Event))
    (e : String) :
    ∀ xs, concatMapE f xs = Except.error e → ∃ x ∈ xs, f x = Except.error e := by
  intro xs
  induction xs with
  | nil => intro h; exact Except.noConfusion h
  | cons x rest ih =>
    intro h
    simp only [concatMapE] at h
    rcases except_bind_error h with h1 | ⟨es1, h1, h2⟩
    · exact ⟨x, List.mem_cons_self x rest, h1⟩
    · rcases except_bind_error h2 with h3 | ⟨es2, h3, h4⟩
      · obtain ⟨y, hy, he⟩ := ih h3
        exact ⟨y, List.mem_cons_of_mem x hy, he⟩
      · exact Except.noConfusion h4

/-- Helper: an error of `mapLoadE` originates in a `loadFits` call. -/
theorem mapLoadE_error (env : EnvE) (e : String) :
    ∀ paths, mapLoadE env paths = Except.error e →
      ∃ p ∈ paths, env.loadFits p = Except.error e := by
  intro paths
  induction paths with
  | nil => intro h; exact Except.noConfusion h
  | cons p ps ih =>
    intro h
    simp only [mapLoadE] at h
    rcases except_bind_error h with h1 | ⟨f, h1, h2⟩
    · exact ⟨p, List.mem_cons_self p ps, h1⟩
    · rcases except_bind_error h2 with h3 | ⟨fs, h3, h4⟩
      · obtain ⟨q, hq, he⟩ := ih h3
        exact ⟨q, List.mem_cons_of_mem p hq, he⟩
      · exact Except.noConfusion h4

/-- Helper: an error of a temperature probe step originates in an underlying
`loadFits` or `savefig` call, unchanged. -/
theorem tempProbeStepE_error (env : EnvE) (sim : Simulation)
    (figSize : Option (ℕ × ℕ)) (probe : Probe) (e : String)
    (h : tempProbeStepE env sim figSize probe = Except.error e) :
    (∃ p, env.loadFits p = Except.error e) ∨
    (∃ p, env.savefig p = Except.error e) := by
  simp only [tempProbeStepE] at h
  split at h
  · rcases except_bind_error h with h1 | ⟨frames, h1, h2⟩
    · obtain ⟨p, _, hp⟩ := mapLoadE_error env e _ h1
      exact Or.inl ⟨p, hp⟩
    · split at h2
      · exact Except.noConfusion h2
      · rcases except_bind_error h2 with h3 | ⟨u, h3, h4⟩
        · exact Or.inr ⟨_, h3⟩
        · exact Except.noConfusion h4
  · exact Except.noConfusion h

/-- Helper: an error of the temperature loop originates in an underlying
`loadFits` or `savefig` call, unchanged. -/
theorem loopE_error (env : EnvE) (sim : Simulation) (e : String) :
    ∀ (probes : List Probe) (figSize : Option (ℕ × ℕ)),
      plotTemperatureCutsLoopE env sim probes figSize = Except.error e →
      (∃ p, env.loadFits p = Except.error e) ∨
      (∃ p, env.savefig p = Except.error e) := by
  intro probes
  induction probes with
  | nil => intro figSize h; exact Except.noConfusion h
  | cons probe rest ih =>
    intro figSize h
    simp only [plotTemperatureCutsLoopE] at h
    rcases except_bind_error h with h1 | ⟨res, h1, h2⟩
    · exact tempProbeStepE_error env sim figSize probe e h1
    · rcases res with _ | r
      · exact Except.noConfusion h2
      · rcases except_bind_error h2 with h3 | ⟨es, h3, h4⟩
        · exact ih (some r.figSize) h3
        · exact Except.noConfusion h4

/-- C8. Neither function catches or translates exceptions: an error
result of either function is exactly the error of an underlying I/O call
(file loading or saving), and a failing underlying call aborts the enclosing
control flow with that same error. -/
theorem exceptions_propagate (env : EnvE) (sim : Simulation) (decades : ℕ)
    (figSize : Option (ℕ × ℕ)) (e : String) :
    (plotMediaDensityCutsE env sim decades = Except.error e →
       (∃ p, env.loadFits p = Except.error e) ∨
       (∃ p, env.savefig p = Except.error e)) ∧
    (plotTemperatureCutsE env sim figSize = Except.error e →
       (∃ p, env.loadFits p = Except.error e) ∨
       (∃ p, env.savefig p = Except.error e)) ∧
    (∀ probe medium cut tPath gPath,
       probe.outFilePaths (medium ++ "_t_" ++ cut ++ ".fits") = [tPath] →
       probe.outFilePaths (medium ++ "_g_" ++ cut ++ ".fits") = [gPath] →
       env.loadFits tPath = Except.error e →
       densityCutStepE env sim decades probe medium cut = Except.error e) ∧
    (∀ probe rest,
       tempProbeStepE env sim figSize probe = Except.error e →
       plotTemperatureCutsLoopE env sim (probe :: rest) figSize = Except.error e) := by
  refine ⟨?_, ?_, ?_, ?_⟩
  · intro h
    obtain ⟨probe, _, h⟩ := concatMapE_error _ e _ h
    obtain ⟨medium, _, h⟩ := concatMapE_error _ e _ h
    obtain ⟨cut, _, h⟩ := concatMapE_error _ e _ h
    exact densityCutStepE_error env sim decades probe medium cut e h
  · intro h
    exact loopE_error env sim e (tempProbes sim) figSize h
  · intro probe medium cut tPath gPath h1 h2 h3
    simp only [densityCutStepE]
    rw [h1, h2]
    dsimp only
    rw [h3]
    rfl
  · intro probe rest h
    simp only [plotTemperatureCutsLoopE]
    rw [h]
    rfl

/-- Witness for `exceptions_propagate`: an environment whose `loadFits`
always fails with `"io"`, over a simulation with one probe per function. -/
theorem exceptions_propagate_witness :
    ((∃ p, wEnvE.loadFits p = Except.error "io") ∨
      (∃ p, wEnvE.savefig p = Except.error "io")) ∧
    ((∃ p, wEnvE.loadFits p = Except.error "io") ∨
      (∃ p, wEnvE.savefig p = Except.error "io")) ∧
    densityCutStepE wEnvE wSimBoth 5 wProbeD "dust" "xy" = Except.error "io" ∧
    plotTemperatureCutsLoopE wEnvE wSimBoth [wProbeT1] none = Except.error "io" :=
  ⟨(exceptions_propagate wEnvE wSimBoth 5 none "io").1 rfl,
   (exceptions_propagate wEnvE wSimBoth 5 none "io").2.1 rfl,
   (exceptions_propagate wEnvE wSimBoth 5 none "io").2.2.1 wProbeD "dust" "xy"
     "dust_t_xy.fits" "dust_g_xy.fits" rfl rfl rfl,
   (exceptions_propagate wEnvE wSimBoth 5 none "io").2.2.2 wProbeT1 [] rfl⟩
